import Mathlib

/-!
Verification development for the rusty-socket static file server
(src/handler.rs, src/structs.rs, src/main.rs).

The per-request logic is embedded shallowly: external collaborators
(the `urlencoding::decode` function and the filesystem) appear as an
oracle structure, paths are strings with Rust `Path` operations modelled
component-wise, and the handler is a pure function from the result of
the single socket read to the response it writes.
-/

/-- ASCII whitespace, the whitespace class relevant to Rust `str::trim`
and `str::split_whitespace` on the request lines this server parses. -/
def isWS (c : Char) : Bool :=
  c = ' ' || c = '\t' || c = '\n' || c = '\r' || c = Char.ofNat 11 || c = Char.ofNat 12

/-- Rust `str::trim`: drop surrounding whitespace. -/
def trimChars (l : List Char) : List Char :=
  ((l.dropWhile isWS).reverse.dropWhile isWS).reverse

/-- `trim` lifted to `String`. -/
def trimStr (s : String) : String := ⟨trimChars s.data⟩

/-- Whether a path string is absolute (has a root separator). -/
def pathIsAbsolute (s : String) : Bool := s.data.head? == some '/'

/-- Whether a path string ends in a separator. -/
def pathEndsSep (s : String) : Bool := s.data.getLast? == some '/'

/-- Rust `Path::join`: joining an absolute component replaces the base
path entirely; otherwise the component is appended with a separator. -/
def joinPath (base child : String) : String :=
  if pathIsAbsolute child then child
  else if base = "" then child
  else if pathEndsSep base then base ++ child
  else base ++ "/" ++ child

/-- Rust `"str".trim_start_matches('/')`: repeatedly removes the
leading `/` until none is left. -/
def trim_start_matches_slash (s : String) : String :=
  ⟨s.data.dropWhile (· == '/')⟩

/-- Modelled from the spec: "stripping a single leading `/`" (removes at
most one leading separator), stated for comparison with the source's
`trim_start_matches('/')`. -/
def stripOneLeadingSlash (s : String) : String :=
  if pathIsAbsolute s then ⟨s.data.tail⟩ else s

/-- Split a character list at every occurrence of `sep`, keeping empty
segments (the char-list analogue of Rust `str::split`). -/
def splitOnChar (sep : Char) : List Char → List (List Char)
  | [] => [[]]
  | c :: rest =>
    match splitOnChar sep rest with
    | [] => [[]]
    | w :: ws => if c == sep then [] :: w :: ws else (c :: w) :: ws

/-- The components of a path for Rust's component-wise comparisons:
separator-split segments, with empty and `.` segments normalized away. -/
def pathComponents (s : String) : List (List Char) :=
  (splitOnChar '/' s.data).filter (fun c => !c.isEmpty && c != ['.'])

/-- Rust `Path::starts_with`: component-wise, so `/ab` does not start
with `/a`, and an absolute path never starts with a relative one. -/
def path_starts_with (p base : String) : Bool :=
  pathIsAbsolute p == pathIsAbsolute base &&
    (pathComponents base).isPrefixOf (pathComponents p)

/-- External collaborators of the handler, outside this repository:
`urlencoding::decode` (failure = invalid UTF-8 after decoding),
`Path::canonicalize` (failure = nonexistent path), `Path::is_file`,
and `fs::read` (file contents as bytes, failure = I/O error). -/
structure SysOracle where
  decode : String → Option String
  canonicalize : String → Option String
  is_file : String → Bool
  read_file : String → Option (List Nat)

/-- handler.rs lines 20-24: the target path before canonicalization,
as a function of the already decoded-and-trimmed request value. -/
def target_path (base_dir requested_path index_file : String) : String :=
  if requested_path = "/" || requested_path = "" then joinPath base_dir index_file
  else joinPath base_dir (trim_start_matches_slash requested_path)

/-- handler.rs `sanitize_path` (lines 11-33): reject empty root or index
name, percent-decode and trim the request, resolve the target, then
canonicalize and require the result to stay under `base_dir` and be a
regular file. -/
def sanitize_path (o : SysOracle) (base_dir requested_path index_file : String) :
    Option String :=
  if base_dir = "" || index_file = "" then none
  else
    match o.decode requested_path with
    | none => none
    | some decoded =>
      let requested := trimStr decoded
      let target := target_path base_dir requested index_file
      match o.canonicalize target with
      | some clean_path =>
        if path_starts_with clean_path base_dir && o.is_file clean_path then
          some clean_path
        else none
      | none => none

/-- UTF-8 encoding of one Unicode scalar value, as a byte list. -/
def utf8EncodeChar (c : Char) : List Nat :=
  let n := c.toNat
  if n < 0x80 then [n]
  else if n < 0x800 then [0xC0 + n / 0x40, 0x80 + n % 0x40]
  else if n < 0x10000 then
    [0xE0 + n / 0x1000, 0x80 + (n / 0x40) % 0x40, 0x80 + n % 0x40]
  else
    [0xF0 + n / 0x40000, 0x80 + (n / 0x1000) % 0x40, 0x80 + (n / 0x40) % 0x40,
      0x80 + n % 0x40]

/-- UTF-8 encoding of a string, as the byte sequence written to a socket. -/
def utf8Encode (s : String) : List Nat := (s.data.map utf8EncodeChar).flatten

def crlf : String := "\r\n"

/-- handler.rs lines 40-47: the `format!` template of the response
header block. -/
def response_headers (status content_type : String) (content_length : Nat) : String :=
  "HTTP/1.1 " ++ status ++ crlf ++
  "Content-Type: " ++ content_type ++ crlf ++
  "Content-Length: " ++ toString content_length ++ crlf ++
  "Connection: close" ++ crlf ++ crlf

/-- handler.rs `send_response` (lines 36-61): the byte sequence written
to the stream on the successful path — the header block, then the body
when present.  `content_length` is `content.map_or(0, |c| c.len())`. -/
def send_response (status : String) (content : Option (List Nat)) (content_type : String) :
    List Nat :=
  let content_length := match content with | none => 0 | some c => c.length
  utf8Encode (response_headers status content_type content_length) ++
    (match content with | none => [] | some body => body)

/-- The Unicode replacement character emitted by lossy decoding. -/
def replacementChar : Char := Char.ofNat 0xFFFD

/-- Whether a byte is a UTF-8 continuation byte. -/
def isContByte (b : Nat) : Bool := 0x80 ≤ b && b ≤ 0xBF

/-- Fuelled worker for `utf8Lossy`; the fuel bounds the number of
decoding steps and every step consumes at least one byte. -/
def utf8LossyAux : Nat → List Nat → List Char
  | 0, _ => []
  | _, [] => []
  | fuel + 1, b0 :: rest =>
    if b0 < 0x80 then Char.ofNat b0 :: utf8LossyAux fuel rest
    else if 0xC2 ≤ b0 && b0 ≤ 0xDF then
      match rest with
      | b1 :: rest1 =>
        if isContByte b1 then
          Char.ofNat ((b0 - 0xC0) * 0x40 + (b1 - 0x80)) :: utf8LossyAux fuel rest1
        else replacementChar :: utf8LossyAux fuel rest
      | [] => [replacementChar]
    else if 0xE0 ≤ b0 && b0 ≤ 0xEF then
      match rest with
      | b1 :: b2 :: rest2 =>
        if isContByte b1 && isContByte b2 &&
            !(b0 == 0xE0 && b1 < 0xA0) && !(b0 == 0xED && 0x9F < b1) then
          Char.ofNat ((b0 - 0xE0) * 0x1000 + (b1 - 0x80) * 0x40 + (b2 - 0x80)) ::
            utf8LossyAux fuel rest2
        else replacementChar :: utf8LossyAux fuel rest
      | _ => replacementChar :: utf8LossyAux fuel rest
    else if 0xF0 ≤ b0 && b0 ≤ 0xF4 then
      match rest with
      | b1 :: b2 :: b3 :: rest3 =>
        if isContByte b1 && isContByte b2 && isContByte b3 &&
            !(b0 == 0xF0 && b1 < 0x90) && !(b0 == 0xF4 && 0x8F < b1) then
          Char.ofNat ((b0 - 0xF0) * 0x40000 + (b1 - 0x80) * 0x1000 +
            (b2 - 0x80) * 0x40 + (b3 - 0x80)) :: utf8LossyAux fuel rest3
        else replacementChar :: utf8LossyAux fuel rest
      | _ => replacementChar :: utf8LossyAux fuel rest
    else replacementChar :: utf8LossyAux fuel rest

/-- Rust `String::from_utf8_lossy`: decode the bytes as UTF-8,
substituting the replacement character for ill-formed sequences. -/
def utf8Lossy (bytes : List Nat) : List Char := utf8LossyAux bytes.length bytes

/-- Remove one trailing carriage return, as Rust `str::lines` does. -/
def stripTrailingCR (l : List Char) : List Char :=
  if l.getLast? == some '\r' then l.dropLast else l

/-- Rust `str::lines().next()`: `none` exactly on the empty string,
otherwise the text before the first newline, minus a trailing `\r`. -/
def linesNext (l : List Char) : Option (List Char) :=
  match l with
  | [] => none
  | _ :: _ => some (stripTrailingCR (l.takeWhile (· != '\n')))

/-- Accumulator worker for `split_whitespace`. -/
def splitWhitespaceAux : List Char → List Char → List (List Char)
  | [], acc => if acc.isEmpty then [] else [acc.reverse]
  | c :: rest, acc =>
    if isWS c then
      if acc.isEmpty then splitWhitespaceAux rest []
      else acc.reverse :: splitWhitespaceAux rest []
    else splitWhitespaceAux rest (c :: acc)

/-- Rust `str::split_whitespace`: maximal runs of non-whitespace. -/
def split_whitespace (l : List Char) : List String :=
  (splitWhitespaceAux l []).map (fun w => ⟨w⟩)

/-- handler.rs line 96: `parts.next()` — the method token. -/
def parsedMethod (line : List Char) : Option String := (split_whitespace line).get? 0

/-- handler.rs line 97: the second `parts.next()` — the path token. -/
def parsedPath (line : List Char) : Option String := (split_whitespace line).get? 1

/-- handler.rs line 98: the third `parts.next()` — the version token. -/
def parsedVersion (line : List Char) : Option String := (split_whitespace line).get? 2

/-- handler.rs line 101: the combined request-line validity check. -/
def bad_request_line (line : List Char) : Bool :=
  parsedMethod line != some "GET" || (parsedPath line).isNone ||
    parsedVersion line != some "HTTP/1.1"

/-- Rust `Path::file_name` as a character list: the last
separator-split segment that is nonempty. -/
def file_name (p : String) : List Char :=
  ((((splitOnChar '/' p.data).filter (fun c => !c.isEmpty)).getLast?).getD [])

/-- Rust `Path::extension().and_then(|e| e.to_str())`: the part of the
file name after its last dot, unless the only dot is the leading one. -/
def path_extension (p : String) : Option String :=
  match splitOnChar '.' (file_name p) with
  | [] => none
  | [_] => none
  | [[], _] => none
  | parts => (parts.getLast?).map (fun w => ⟨w⟩)

/-- handler.rs lines 120-151: the suffix-to-MIME lookup for 200
responses; every unlisted extension falls back to `text/plain`. -/
def content_type_for (ext : Option String) : String :=
  match ext with
  | some "html" => "text/html"
  | some "htm" => "text/html"
  | some "js" => "application/javascript"
  | some "css" => "text/css"
  | some "png" => "image/png"
  | some "jpg" => "image/jpeg"
  | some "jpeg" => "image/jpeg"
  | some "ico" => "image/x-icon"
  | some "gif" => "image/gif"
  | some "webp" => "image/webp"
  | some "svg" => "image/svg+xml"
  | some "json" => "application/json"
  | some "xml" => "application/xml"
  | some "pdf" => "application/pdf"
  | some "zip" => "application/zip"
  | some "gz" => "application/gzip"
  | some "7z" => "application/x-7z-compressed"
  | some "rar" => "application/x-rar-compressed"
  | some "tar" => "application/x-tar"
  | some "mp3" => "audio/mpeg"
  | some "mp4" => "video/mp4"
  | some "webm" => "video/webm"
  | some "mpeg" => "video/mpeg"
  | some "m4a" => "audio/mp4"
  | some "ogg" => "audio/ogg"
  | some "oga" => "audio/ogg"
  | some "wav" => "audio/wav"
  | some "woff" => "font/woff"
  | some "woff2" => "font/woff2"
  | some "ttf" => "font/ttf"
  | some "otf" => "font/otf"
  | some "eot" => "application/vnd.ms-fontobject"
  | _ => "text/plain"

/-- The outcome of the single `stream.read` in handler.rs lines 74-81:
the peer closed (0 bytes), an I/O error, or `n ≥ 1` bytes of data. -/
inductive ReadResult where
  | closed
  | readError
  | data (bytes : List Nat)
deriving DecidableEq

/-- What `handle_client` does with the connection: terminate without
writing anything (`logged` records whether an error was printed), or
write one response via `send_response`.  Field order matches
`send_response`: status, body, content type. -/
inductive Outcome where
  | terminated (logged : Bool)
  | response (status : String) (content : Option (List Nat)) (content_type : String)
deriving DecidableEq

/-- handler.rs lines 95-165: processing of a successfully read request
line.  The combined validity check fires first; the separate 405 branch
for non-GET methods (lines 110-113) is kept exactly as in the source.
`path.unwrap()` is modelled by `getD ""`; the validity check guarantees
the path token is present on every reachable use. -/
def handle_request_line (o : SysOracle) (base_dir index_file : String)
    (request_line : List Char) : Outcome :=
  if bad_request_line request_line then
    .response "400 Bad Request" none "text/plain"
  else if parsedMethod request_line != some "GET" then
    .response "405 Method Not Allowed" none "text/plain"
  else
    let path := (parsedPath request_line).getD ""
    match sanitize_path o base_dir path index_file with
    | some file_path =>
      match o.read_file file_path with
      | some contents =>
        .response "200 OK" (some contents) (content_type_for (path_extension file_path))
      | none => .response "500 Internal Server Error" none "text/plain"
    | none => .response "404 Not Found" none "text/plain"

/-- handler.rs `handle_client` (lines 64-166) as a function of the
result of the single socket read: zero bytes or a read error terminate
with no response; otherwise the buffer is decoded lossily, the first
line is taken (400 if there is none), and the request line is handled. -/
def handle_client (o : SysOracle) (base_dir index_file : String) (r : ReadResult) :
    Outcome :=
  match r with
  | .closed => .terminated false
  | .readError => .terminated true
  | .data bytes =>
    let request := utf8Lossy bytes
    match linesNext request with
    | none => .response "400 Bad Request" none "text/plain"
    | some request_line => handle_request_line o base_dir index_file request_line

/-- structs.rs `Worker` (lines 85-111): each worker records its id and
which receiving end it holds; all workers of one pool hold clones of
the same `Arc`'d receiver, named here by index 0. -/
structure Worker where
  id : Nat
  receiver : Nat
deriving DecidableEq

/-- structs.rs `ThreadPool` (lines 36-39): the workers and whether the
`Option`al sending end is still present (`Some` until `Drop` takes it). -/
structure ThreadPool where
  workers : List Worker
  sender_alive : Bool
deriving DecidableEq

/-- The state of the mpsc channel shared by the pool: the queued job
identifiers and whether the receiving end is still open. -/
structure Channel where
  queue : List Nat
  receiver_open : Bool
deriving DecidableEq

/-- structs.rs `ThreadPool::new` (lines 42-55): the `assert!(size > 0)`
panic is modelled as `none`; otherwise `size` workers are spawned, each
holding the one shared receiver. -/
def ThreadPool.new (size : Nat) : Option ThreadPool :=
  if 0 < size then
    some { workers := (List.range size).map (fun i => { id := i, receiver := 0 }),
           sender_alive := true }
  else none

/-- structs.rs `ThreadPool::execute` (lines 57-66): when the sender is
present, `send` succeeds exactly when the receiving end is open; a
failed send only prints an error.  Returns the new channel state and
whether the failure was logged. -/
def ThreadPool.execute (p : ThreadPool) (ch : Channel) (job : Nat) :
    Channel × Bool :=
  if p.sender_alive then
    if ch.receiver_open then ({ ch with queue := ch.queue ++ [job] }, false)
    else (ch, true)
  else (ch, false)

/-- An oracle for runs against an empty filesystem: decoding is the
identity and every canonicalization fails. -/
def oracleTrivial : SysOracle :=
  { decode := fun s => some s
    canonicalize := fun _ => none
    is_file := fun _ => false
    read_file := fun _ => none }

/-- An oracle describing a traversal attempt: the root `/srv` is its own
canonical form and every other path canonicalizes to `/etc/passwd`,
an existing file outside the root. -/
def oracleEscape : SysOracle :=
  { decode := fun s => some s
    canonicalize := fun s => if s = "/srv" then some "/srv" else some "/etc/passwd"
    is_file := fun _ => true
    read_file := fun _ => none }

/-- An oracle on which percent-decoding always fails. -/
def oracleNoDecode : SysOracle :=
  { decode := fun _ => none
    canonicalize := fun _ => none
    is_file := fun _ => false
    read_file := fun _ => none }

/-- Auxiliary: the head surviving a `dropWhile` falsifies the predicate. -/
theorem head_dropWhile_false (p : Char → Bool) (l : List Char) :
    ∀ c, (l.dropWhile p).head? = some c → p c = false := by
  induction l with
  | nil => intro c h; simp [List.dropWhile] at h
  | cons a t ih =>
    intro c h
    by_cases hp : p a
    · rw [List.dropWhile_cons_of_pos hp] at h; exact ih c h
    · rw [List.dropWhile_cons_of_neg hp] at h
      simp at h
      subst h
      simpa using hp

/-- Auxiliary: after `trim_start_matches('/')` the rest of the request
can never be an absolute path. -/
theorem trim_start_matches_slash_not_abs (s : String) :
    pathIsAbsolute (trim_start_matches_slash s) = false := by
  unfold pathIsAbsolute trim_start_matches_slash
  cases hh : (s.data.dropWhile (· == '/')).head? with
  | none => simp [hh]
  | some c =>
    have hc := head_dropWhile_false (· == '/') s.data c hh
    simp [hh]
    simpa using hc

/-- Auxiliary: UTF-8 encoding distributes over string concatenation. -/
theorem utf8Encode_append (a b : String) :
    utf8Encode (a ++ b) = utf8Encode a ++ utf8Encode b := by
  unfold utf8Encode
  rw [String.data_append, List.map_append, List.flatten_append]

/-- Auxiliary: one lossy-decoding step on a nonempty input always emits
a character. -/
theorem utf8LossyAux_cons_ne_nil (fuel : Nat) (b : Nat) (rest : List Nat) :
    utf8LossyAux (fuel + 1) (b :: rest) ≠ [] := by
  unfold utf8LossyAux
  repeat' split
  all_goals simp

/-- Auxiliary: lossy decoding of a nonempty byte buffer is a nonempty
string. -/
theorem utf8Lossy_ne_nil (bytes : List Nat) (h : bytes ≠ []) : utf8Lossy bytes ≠ [] := by
  cases bytes with
  | nil => exact absurd rfl h
  | cons b rest => exact utf8LossyAux_cons_ne_nil rest.length b rest

/-- C1: whenever the resolved target (root joined with the decoded,
slash-stripped request) fails to canonicalize, or canonicalizes to a
path that does not have the (canonical) root as a component-wise
prefix, or canonicalizes to something that is not a regular file,
`sanitize_path` returns `none`. -/
theorem sanitize_path_rejects_outside_root (o : SysOracle)
    (base_dir requested index_file decoded : String)
    (_hroot : o.canonicalize base_dir = some base_dir)
    (hdec : o.decode requested = some decoded)
    (hrej : ∀ clean,
      o.canonicalize (target_path base_dir (trimStr decoded) index_file) = some clean →
      path_starts_with clean base_dir = false ∨ o.is_file clean = false) :
    sanitize_path o base_dir requested index_file = none := by
  unfold sanitize_path
  split
  · rfl
  · rw [hdec]
    cases hc : o.canonicalize (target_path base_dir (trimStr decoded) index_file) with
    | none => simp [hc]
    | some clean =>
      rcases hrej clean hc with h | h <;> simp [hc, h]

/-- C1 witness: a `..` traversal request against root `/srv` whose
target canonicalizes to `/etc/passwd`, outside the root, is rejected. -/
theorem sanitize_path_rejects_outside_root_witness :
    sanitize_path oracleEscape "/srv" "/../etc/passwd" "index.html" = none :=
  sanitize_path_rejects_outside_root oracleEscape "/srv" "/../etc/passwd" "index.html"
    "/../etc/passwd" (by decide) rfl
    (by
      intro clean h
      rw [show oracleEscape.canonicalize
            (target_path "/srv" (trimStr "/../etc/passwd") "index.html") =
          some "/etc/passwd" from by decide] at h
      obtain rfl := Option.some.inj h
      left
      decide)

/-- C2 counterexample: for the decoded value `//etc/passwd` (neither
`/` nor empty), the target computed by the source differs from root
joined with the value after stripping a single leading slash — the code
strips all leading slashes, and under Rust join semantics the
single-strip reading would yield the absolute path `/etc/passwd`. -/
theorem target_path_single_strip_cex :
    target_path "/srv" "//etc/passwd" "index.html" ≠
      joinPath "/srv" (stripOneLeadingSlash "//etc/passwd") := by decide

/-- C2 amended: a decoded value of `/` or empty resolves to
root/index_file; any other decoded value resolves to root joined with
the value after stripping all leading `/` characters, so the joined
value is never absolute and is always treated as relative to root. -/
theorem target_path_resolution (base_dir index_file requested : String) :
    ((requested = "/" ∨ requested = "") →
      target_path base_dir requested index_file = joinPath base_dir index_file) ∧
    (requested ≠ "/" → requested ≠ "" →
      target_path base_dir requested index_file =
        joinPath base_dir (trim_start_matches_slash requested) ∧
      pathIsAbsolute (trim_start_matches_slash requested) = false) := by
  constructor
  · intro h
    unfold target_path
    rcases h with h | h <;> simp [h]
  · intro h1 h2
    refine ⟨?_, trim_start_matches_slash_not_abs requested⟩
    unfold target_path
    simp [h1, h2]

/-- C2 witness: both branches of the resolution rule at concrete
inputs. -/
theorem target_path_resolution_witness :
    target_path "/srv" "/" "index.html" = joinPath "/srv" "index.html" ∧
    (target_path "/srv" "/a" "index.html" =
        joinPath "/srv" (trim_start_matches_slash "/a") ∧
      pathIsAbsolute (trim_start_matches_slash "/a") = false) :=
  ⟨(target_path_resolution "/srv" "index.html" "/").1 (Or.inl rfl),
   (target_path_resolution "/srv" "index.html" "/a").2 (by decide) (by decide)⟩

/-- C3 counterexample: a connection whose first request line parses
into method `POST`, a path and a version receives `400 Bad Request`,
not `405 Method Not Allowed` — the combined validity check fires before
the separate method check ever runs. -/
theorem non_get_gets_400_cex :
    parsedMethod "POST / HTTP/1.1".data = some "POST" ∧
    handle_client oracleTrivial "/srv" "index.html"
        (.data (utf8Encode "POST / HTTP/1.1\r\n")) =
      Outcome.response "400 Bad Request" none "text/plain" ∧
    handle_client oracleTrivial "/srv" "index.html"
        (.data (utf8Encode "POST / HTTP/1.1\r\n")) ≠
      Outcome.response "405 Method Not Allowed" none "text/plain" := by
  decide

/-- C3 amended: every request line whose method token is not `GET` is
answered with `400 Bad Request` by the combined validity check, and no
input whatsoever makes the handler produce `405 Method Not Allowed` —
the 405 branch is unreachable. -/
theorem non_get_request_line_gets_400 :
    (∀ (o : SysOracle) (base_dir index_file : String) (line : List Char),
      parsedMethod line ≠ some "GET" →
      handle_request_line o base_dir index_file line =
        .response "400 Bad Request" none "text/plain") ∧
    (∀ (o : SysOracle) (base_dir index_file : String) (r : ReadResult),
      handle_client o base_dir index_file r ≠
        .response "405 Method Not Allowed" none "text/plain") := by
  have h405 : ∀ (o : SysOracle) (base_dir index_file : String) (line : List Char),
      handle_request_line o base_dir index_file line ≠
        .response "405 Method Not Allowed" none "text/plain" := by
    intro o base_dir index_file line
    unfold handle_request_line
    by_cases hb : bad_request_line line
    · simp [hb]
    · have hm : parsedMethod line = some "GET" := by
        unfold bad_request_line at hb
        simp at hb
        exact hb.1.1
      simp [hb, hm]
      split
      · split <;> simp
      · simp
  constructor
  · intro o base_dir index_file line h
    unfold handle_request_line
    have hb : bad_request_line line = true := by
      unfold bad_request_line
      simp [h]
    simp [hb]
  · intro o base_dir index_file r
    cases r with
    | closed => simp [handle_client]
    | readError => simp [handle_client]
    | data bytes =>
      simp only [handle_client]
      cases hl : linesNext (utf8Lossy bytes) with
      | none => simp [hl]
      | some line =>
        simp only [hl]
        exact h405 o base_dir index_file line

/-- C3 witness: a `PUT` request line gets 400, and a concrete
connection is never answered 405. -/
theorem non_get_request_line_gets_400_witness :
    parsedMethod "PUT / HTTP/1.1".data ≠ some "GET" ∧
    handle_request_line oracleTrivial "/srv" "index.html" "PUT / HTTP/1.1".data =
      .response "400 Bad Request" none "text/plain" ∧
    handle_client oracleTrivial "/srv" "index.html"
        (.data (utf8Encode "PUT / HTTP/1.1\r\n")) ≠
      .response "405 Method Not Allowed" none "text/plain" :=
  ⟨by decide,
   non_get_request_line_gets_400.1 oracleTrivial "/srv" "index.html"
     "PUT / HTTP/1.1".data (by decide),
   non_get_request_line_gets_400.2 oracleTrivial "/srv" "index.html"
     (.data (utf8Encode "PUT / HTTP/1.1\r\n"))⟩

/-- C5: the bytes written by `send_response` are exactly the status
line `HTTP/1.1 <status>`, a `Content-Type` header, a `Content-Length`
header whose value is the byte length of the body (0 when there is no
body), `Connection: close`, a blank line, and then the body if any. -/
theorem send_response_wire_format (status : String) (content : Option (List Nat))
    (content_type : String) :
    send_response status content content_type =
      utf8Encode ("HTTP/1.1 " ++ status ++ crlf) ++
      utf8Encode ("Content-Type: " ++ content_type ++ crlf) ++
      utf8Encode ("Content-Length: " ++ toString (content.getD []).length ++ crlf) ++
      utf8Encode ("Connection: close" ++ crlf) ++
      utf8Encode crlf ++
      content.getD [] := by
  cases content <;>
    simp [send_response, response_headers, utf8Encode_append, List.append_assoc,
      String.append_assoc]

/-- C6: `sanitize_path` returns `none` for an empty root, an empty
index file name, and whenever percent-decoding fails; and when decoding
succeeds the decoded value is trimmed before any further processing, so
two requests whose decoded values agree after trimming are resolved
identically. -/
theorem sanitize_path_input_validation :
    (∀ o requested index_file, sanitize_path o "" requested index_file = none) ∧
    (∀ o base_dir requested, sanitize_path o base_dir requested "" = none) ∧
    (∀ (o : SysOracle) base_dir requested index_file, o.decode requested = none →
      sanitize_path o base_dir requested index_file = none) ∧
    (∀ (o : SysOracle) base_dir index_file r1 r2 d1 d2,
      o.decode r1 = some d1 → o.decode r2 = some d2 → trimStr d1 = trimStr d2 →
      sanitize_path o base_dir r1 index_file = sanitize_path o base_dir r2 index_file) := by
  refine ⟨?_, ?_, ?_, ?_⟩
  · intro o requested index_file; unfold sanitize_path; simp
  · intro o base_dir requested; unfold sanitize_path; simp
  · intro o base_dir requested index_file h
    unfold sanitize_path
    rw [h]
    split <;> rfl
  · intro o base_dir index_file r1 r2 d1 d2 h1 h2 ht
    unfold sanitize_path
    rw [h1, h2]
    simp only [ht]

/-- C6 witness: each input-validation case at concrete inputs, and a
whitespace-padded request resolved like its trimmed form. -/
theorem sanitize_path_input_validation_witness :
    sanitize_path oracleTrivial "" "/a" "index.html" = none ∧
    sanitize_path oracleTrivial "/srv" "/a" "" = none ∧
    sanitize_path oracleNoDecode "/srv" "/a" "index.html" = none ∧
    sanitize_path oracleTrivial "/srv" " /a " "index.html" =
      sanitize_path oracleTrivial "/srv" "/a" "index.html" :=
  ⟨sanitize_path_input_validation.1 oracleTrivial "/a" "index.html",
   sanitize_path_input_validation.2.1 oracleTrivial "/srv" "/a",
   sanitize_path_input_validation.2.2.1 oracleNoDecode "/srv" "/a" "index.html" rfl,
   sanitize_path_input_validation.2.2.2 oracleTrivial "/srv" "index.html" " /a " "/a"
     " /a " "/a" rfl rfl (by decide)⟩

/-- C7: a read of zero bytes makes the handler terminate silently and a
read error makes it terminate after logging; in both cases the outcome
is `terminated`, not a `response`, so no status line is ever written. -/
theorem read_failure_no_response (o : SysOracle) (base_dir index_file : String) :
    handle_client o base_dir index_file .closed = .terminated false ∧
    handle_client o base_dir index_file .readError = .terminated true :=
  ⟨rfl, rfl⟩

/-- C8: when the pool still holds its sender, `execute` on a closed
queue leaves the queue unchanged and logs the failure, and on an open
queue appends the job exactly once without logging; being a total
function of the state, it neither blocks nor panics. -/
theorem execute_enqueue_or_discard (p : ThreadPool) (ch : Channel) (job : Nat)
    (halive : p.sender_alive = true) :
    (ch.receiver_open = false →
      ThreadPool.execute p ch job = (ch, true)) ∧
    (ch.receiver_open = true →
      ThreadPool.execute p ch job = ({ ch with queue := ch.queue ++ [job] }, false) ∧
      (ThreadPool.execute p ch job).1.queue.count job = ch.queue.count job + 1) := by
  constructor
  · intro hr; unfold ThreadPool.execute; simp [halive, hr]
  · intro hr
    constructor <;> unfold ThreadPool.execute <;> simp [halive, hr, List.count_append]

/-- C8 witness: a discarded job on a closed queue and an enqueued job
on an open queue, at concrete states. -/
theorem execute_enqueue_or_discard_witness :
    ThreadPool.execute { workers := [], sender_alive := true }
        { queue := [], receiver_open := false } 7 =
      ({ queue := [], receiver_open := false }, true) ∧
    (ThreadPool.execute { workers := [], sender_alive := true }
        { queue := [5], receiver_open := true } 7 =
      ({ queue := [5, 7], receiver_open := true }, false) ∧
    (ThreadPool.execute { workers := [], sender_alive := true }
        { queue := [5], receiver_open := true } 7).1.queue.count 7 =
      ([5] : List Nat).count 7 + 1) :=
  ⟨(execute_enqueue_or_discard { workers := [], sender_alive := true }
      { queue := [], receiver_open := false } 7 rfl).1 rfl,
   (execute_enqueue_or_discard { workers := [], sender_alive := true }
      { queue := [5], receiver_open := true } 7 rfl).2 rfl⟩

/-- C9: `ThreadPool::new 0` panics (modelled as `none`), and for every
positive size the pool is built with exactly `size` workers, all
holding the one shared receiving end, with the sender present. -/
theorem threadpool_new_spec (size : Nat) :
    (size = 0 → ThreadPool.new size = none) ∧
    (0 < size → ∃ p, ThreadPool.new size = some p ∧
      p.workers.length = size ∧ p.sender_alive = true ∧
      ∀ w ∈ p.workers, w.receiver = 0) := by
  constructor
  · intro h; subst h; rfl
  · intro h
    refine ⟨{ workers := (List.range size).map (fun i => { id := i, receiver := 0 }),
              sender_alive := true }, ?_, by simp, rfl, ?_⟩
    · unfold ThreadPool.new; simp [h]
    · intro w hw
      simp [List.mem_map] at hw
      obtain ⟨i, _, rfl⟩ := hw
      rfl

/-- C9 witness: size 0 aborts and size 3 builds three workers sharing
the receiver. -/
theorem threadpool_new_spec_witness :
    ThreadPool.new 0 = none ∧
    (∃ p, ThreadPool.new 3 = some p ∧
      p.workers.length = 3 ∧ p.sender_alive = true ∧
      ∀ w ∈ p.workers, w.receiver = 0) :=
  ⟨(threadpool_new_spec 0).1 rfl, (threadpool_new_spec 3).2 (by decide)⟩

/-- C10: for every nonempty byte buffer, lossy decoding yields a
nonempty string whose first line exists, so the handler never takes the
missing-request-line branch; moreover every `400 Bad Request` produced
from a request line comes from the combined validity check. -/
theorem first_line_always_present (bytes : List Nat) (h : bytes ≠ []) :
    (∃ line, linesNext (utf8Lossy bytes) = some line) ∧
    (∀ (o : SysOracle) (base_dir index_file : String) (line : List Char),
      linesNext (utf8Lossy bytes) = some line →
      handle_client o base_dir index_file (.data bytes) =
        handle_request_line o base_dir index_file line) ∧
    (∀ (o : SysOracle) (base_dir index_file : String) (line : List Char),
      handle_request_line o base_dir index_file line =
        .response "400 Bad Request" none "text/plain" →
      bad_request_line line = true) := by
  refine ⟨?_, ?_, ?_⟩
  · cases hll : utf8Lossy bytes with
    | nil => exact absurd hll (utf8Lossy_ne_nil bytes h)
    | cons c t =>
      exact ⟨stripTrailingCR ((c :: t).takeWhile (· != '\n')), rfl⟩
  · intro o base_dir index_file line hl
    simp only [handle_client, hl]
  · intro o base_dir index_file line h400
    by_cases hb : bad_request_line line
    · exact hb
    · exfalso
      have hm : parsedMethod line = some "GET" := by
        unfold bad_request_line at hb
        simp at hb
        exact hb.1.1
      unfold handle_request_line at h400
      simp [hb, hm] at h400
      split at h400 <;> (try split at h400) <;> simp_all

/-- C10 witness: the one-token buffer `GARBAGE` has a first line, is
dispatched to the request-line handler, and fails the validity check. -/
theorem first_line_always_present_witness :
    (∃ line, linesNext (utf8Lossy (utf8Encode "GARBAGE")) = some line) ∧
    handle_client oracleTrivial "/srv" "index.html" (.data (utf8Encode "GARBAGE")) =
      handle_request_line oracleTrivial "/srv" "index.html" "GARBAGE".data ∧
    bad_request_line "GARBAGE".data = true :=
  ⟨(first_line_always_present (utf8Encode "GARBAGE") (by decide)).1,
   (first_line_always_present (utf8Encode "GARBAGE") (by decide)).2.1 oracleTrivial
     "/srv" "index.html" "GARBAGE".data (by decide),
   (first_line_always_present (utf8Encode "GARBAGE") (by decide)).2.2 oracleTrivial
     "/srv" "index.html" "GARBAGE".data (by decide)⟩
